import Mathlib

/-!
Shallow embedding of the component-tree model of the Flutter Builder
frontend (files src/client/src/lib/widgets.ts,
src/client/src/pages/VisualBuilder.tsx and the enhanced builder page in
src/unnamed/part_001), together with proofs settling the frozen claims
about the natural-language specification.

Conventions of the embedding:
- JSON values (TypeScript `any` in property maps) are modelled by the
  inductive type `Json`; the numeric literals appearing in the widget
  registry are all integers, so `Json.num` carries an `Int`.
- TypeScript objects `Record<string, T>` are modelled as association
  lists in insertion order.
- A function that can throw is modelled with an `Option` result, `none`
  standing for the uncaught exception.
- The nondeterministic identifier suffix produced by
  Date.now and Math.random is passed in as an explicit `fresh` argument.
-/

/-- A JSON value, as stored in a component property map. -/
inductive Json where
  | null : Json
  | bool (b : Bool) : Json
  | num (n : Int) : Json
  | str (s : String) : Json
  | arr (items : List Json) : Json
  | obj (fields : List (String × Json)) : Json

/-- Value type of an editable widget property (widgets.ts, WidgetProp.type). -/
inductive PropType where
  | str | num | bool | color | enum | obj

/-- Category of a widget (widgets.ts, WidgetDefinition.category). -/
inductive Category where
  | layout | content | input

/-- One editable property descriptor (widgets.ts, interface WidgetProp). -/
structure WidgetProp where
  name : String
  type : PropType
  label : String
  description : Option String := none
  defaultValue : Option Json := none
  options : Option (List String) := none
  placeholder : Option String := none

/-- Static description of one widget kind (widgets.ts, interface WidgetDefinition). -/
structure WidgetDefinition where
  id : String
  name : String
  icon : String
  category : Category
  description : String
  canHaveChildren : Bool
  props : List WidgetProp
  defaultProps : Option (List (String × Json)) := none

/-- One node of the component tree (widgets.ts, interface ComponentNode).
The children list makes the type recursive, so it is an inductive type
with explicit projection functions below. -/
inductive ComponentNode where
  | mk (id : String) (type : String) (props : List (String × Json))
      (children : List ComponentNode) : ComponentNode

/-- Projection: the stable identifier of a node. -/
def ComponentNode.id : ComponentNode → String
  | .mk i _ _ _ => i

/-- Projection: the widget kind of a node. -/
def ComponentNode.type : ComponentNode → String
  | .mk _ t _ _ => t

/-- Projection: the property map of a node. -/
def ComponentNode.props : ComponentNode → List (String × Json)
  | .mk _ _ p _ => p

/-- Projection: the ordered children of a node. -/
def ComponentNode.children : ComponentNode → List ComponentNode
  | .mk _ _ _ cs => cs

/-- The static widget registry (widgets.ts, FLUTTER_WIDGETS), an
association list in the insertion order of the source object literal.
Every entry is transcribed from the source; note that no entry sets the
optional defaultProps field. -/
def FLUTTER_WIDGETS : List (String × WidgetDefinition) :=
  [ ("Scaffold",
     { id := "Scaffold", name := "Scaffold", icon := "📱",
       category := .layout,
       description := "Basic screen structure with AppBar and body",
       canHaveChildren := true, props := [] }),
    ("AppBar",
     { id := "AppBar", name := "App Bar", icon := "📊",
       category := .layout,
       description := "Top bar of the application",
       canHaveChildren := false,
       props :=
        [ { name := "title", type := .str, label := "Title",
            defaultValue := some (.str "My App"),
            placeholder := some "Enter app bar title" },
          { name := "backgroundColor", type := .color,
            label := "Background Color",
            defaultValue := some (.str "#6200EE") },
          { name := "elevation", type := .num, label := "Elevation",
            defaultValue := some (.num 4) } ] }),
    ("Container",
     { id := "Container", name := "Container", icon := "📦",
       category := .layout,
       description := "Convenience widget combining painting and positioning",
       canHaveChildren := true,
       props :=
        [ { name := "backgroundColor", type := .color,
            label := "Background Color" },
          { name := "padding", type := .num, label := "Padding",
            defaultValue := some (.num 8) },
          { name := "margin", type := .num, label := "Margin",
            defaultValue := some (.num 0) },
          { name := "borderRadius", type := .num, label := "Border Radius",
            defaultValue := some (.num 0) },
          { name := "border", type := .bool, label := "Add Border",
            defaultValue := some (.bool false) } ] }),
    ("Row",
     { id := "Row", name := "Row", icon := "↔️",
       category := .layout,
       description := "Arranges children horizontally",
       canHaveChildren := true,
       props :=
        [ { name := "mainAxisAlignment", type := .enum,
            label := "Main Axis Alignment",
            defaultValue := some (.str "start"),
            options := some ["start", "end", "center", "spaceBetween",
                             "spaceAround", "spaceEvenly"] },
          { name := "crossAxisAlignment", type := .enum,
            label := "Cross Axis Alignment",
            defaultValue := some (.str "center"),
            options := some ["start", "end", "center", "stretch",
                             "baseline"] } ] }),
    ("Column",
     { id := "Column", name := "Column", icon := "↕️",
       category := .layout,
       description := "Arranges children vertically",
       canHaveChildren := true,
       props :=
        [ { name := "mainAxisAlignment", type := .enum,
            label := "Main Axis Alignment",
            defaultValue := some (.str "start"),
            options := some ["start", "end", "center", "spaceBetween",
                             "spaceAround", "spaceEvenly"] },
          { name := "crossAxisAlignment", type := .enum,
            label := "Cross Axis Alignment",
            defaultValue := some (.str "center"),
            options := some ["start", "end", "center", "stretch",
                             "baseline"] } ] }),
    ("Stack",
     { id := "Stack", name := "Stack", icon := "📚",
       category := .layout,
       description := "Arranges children on top of each other",
       canHaveChildren := true, props := [] }),
    ("Positioned",
     { id := "Positioned", name := "Positioned", icon := "📍",
       category := .layout,
       description := "Positions child absolutely within Stack",
       canHaveChildren := true,
       props :=
        [ { name := "top", type := .num, label := "Top" },
          { name := "bottom", type := .num, label := "Bottom" },
          { name := "left", type := .num, label := "Left" },
          { name := "right", type := .num, label := "Right" } ] }),
    ("Expanded",
     { id := "Expanded", name := "Expanded", icon := "📈",
       category := .layout,
       description := "Expands child to fill available space",
       canHaveChildren := true,
       props :=
        [ { name := "flex", type := .num, label := "Flex",
            defaultValue := some (.num 1) } ] }),
    ("SizedBox",
     { id := "SizedBox", name := "Sized Box", icon := "⬜",
       category := .layout,
       description := "Creates a box with specified size",
       canHaveChildren := false,
       props :=
        [ { name := "width", type := .num, label := "Width" },
          { name := "height", type := .num, label := "Height" } ] }),
    ("Padding",
     { id := "Padding", name := "Padding", icon := "🔲",
       category := .layout,
       description := "Adds uniform padding around child",
       canHaveChildren := true,
       props :=
        [ { name := "padding", type := .num, label := "Padding",
            defaultValue := some (.num 8) } ] }),
    ("Center",
     { id := "Center", name := "Center", icon := "⭕",
       category := .layout,
       description := "Centers child within itself",
       canHaveChildren := true, props := [] }),
    ("Card",
     { id := "Card", name := "Card", icon := "🎴",
       category := .layout,
       description := "Material design card with shadow",
       canHaveChildren := true,
       props :=
        [ { name := "elevation", type := .num, label := "Elevation",
            defaultValue := some (.num 1) } ] }),
    ("ListView",
     { id := "ListView", name := "List View", icon := "📋",
       category := .layout,
       description := "Scrollable list of items",
       canHaveChildren := false,
       props :=
        [ { name := "itemCount", type := .num, label := "Item Count",
            defaultValue := some (.num 10) } ] }),
    ("Text",
     { id := "Text", name := "Text", icon := "📝",
       category := .content,
       description := "Displays a string of text",
       canHaveChildren := false,
       props :=
        [ { name := "text", type := .str, label := "Text",
            defaultValue := some (.str "Hello World"),
            placeholder := some "Enter text" },
          { name := "fontSize", type := .num, label := "Font Size",
            defaultValue := some (.num 14) },
          { name := "color", type := .color, label := "Color",
            defaultValue := some (.str "#000000") },
          { name := "fontWeight", type := .enum, label := "Font Weight",
            defaultValue := some (.str "normal"),
            options := some ["normal", "bold"] },
          { name := "alignment", type := .enum, label := "Alignment",
            defaultValue := some (.str "left"),
            options := some ["left", "right", "center", "justify",
                             "start", "end"] } ] }),
    ("Button",
     { id := "Button", name := "Button", icon := "🔘",
       category := .input,
       description := "Elevated button widget",
       canHaveChildren := false,
       props :=
        [ { name := "text", type := .str, label := "Button Text",
            defaultValue := some (.str "Press me"),
            placeholder := some "Enter button text" },
          { name := "onPress", type := .str, label := "On Press Handler",
            placeholder := some "handlePress" },
          { name := "navigateTo", type := .str, label := "Navigate To",
            placeholder := some "/route" } ] }),
    ("TextField",
     { id := "TextField", name := "Text Field", icon := "⌨️",
       category := .input,
       description := "Text input field",
       canHaveChildren := false,
       props :=
        [ { name := "hintText", type := .str, label := "Hint Text",
            placeholder := some "Enter hint text" } ] }),
    ("Icon",
     { id := "Icon", name := "Icon", icon := "⭐",
       category := .content,
       description := "Material Design icon",
       canHaveChildren := false,
       props :=
        [ { name := "icon", type := .str, label := "Icon Name",
            placeholder := some "star, person, arrow_forward_ios" },
          { name := "size", type := .num, label := "Size",
            defaultValue := some (.num 24) },
          { name := "color", type := .color, label := "Color",
            defaultValue := some (.str "#000000") } ] }),
    ("Image",
     { id := "Image", name := "Image", icon := "🖼️",
       category := .content,
       description := "Displays an image",
       canHaveChildren := false,
       props :=
        [ { name := "src", type := .str, label := "Image URL or Path",
            placeholder := some "https://example.com/image.png" },
          { name := "fit", type := .enum, label := "Fit",
            defaultValue := some (.str "cover"),
            options := some ["cover", "contain", "fill", "fitWidth",
                             "fitHeight", "scaleDown"] } ] }) ]

/-- The registered widget kind names (widgets.ts, WIDGET_TYPES). -/
def WIDGET_TYPES : List String := FLUTTER_WIDGETS.map (·.1)

/-- Registry lookup (widgets.ts, getWidgetDefinition): a Record access
FLUTTER_WIDGETS[type], yielding the definition or undefined. -/
def getWidgetDefinition (ty : String) : Option WidgetDefinition :=
  (FLUTTER_WIDGETS.find? (fun kv => kv.1 == ty)).map (·.2)

/-- Containment check (widgets.ts, canContainWidget), transcribed branch
for branch: unknown parent kinds are rejected, ListView is special-cased
to accept anything, AppBar is special-cased to reject anything, and
otherwise the canHaveChildren flag of the parent decides.  The child
kind is not inspected, exactly as in the source. -/
def canContainWidget (parentType childType : String) : Bool :=
  match getWidgetDefinition parentType with
  | none => false
  | some parent =>
    if parentType == "ListView" then true
    else if parentType == "AppBar" then false
    else parent.canHaveChildren

/-- Default-instance factory (widgets.ts, createDefaultComponent).
`none` models the thrown Error for an unknown widget type; `fresh`
stands for the Date.now and Math.random suffix of the generated
identifier.  The props map is definition.defaultProps or the empty
object, as in the source. -/
def createDefaultComponent (fresh : String) (ty : String) :
    Option ComponentNode :=
  match getWidgetDefinition ty with
  | none => none
  | some d =>
    some (ComponentNode.mk (ty ++ "-" ++ fresh) ty (d.defaultProps.getD []) [])

/-! Tree operations shared by VisualBuilder.tsx and the enhanced builder
page (src/unnamed/part_001); the helper functions at the bottom of the
two files are textually identical. -/

mutual

/-- Depth-first lookup of a node by identifier (VisualBuilder.tsx,
findComponentById): the node itself is checked first, then its children
left to right, first match wins. -/
def findComponentById (component : ComponentNode) (id : String) :
    Option ComponentNode :=
  match component with
  | .mk i t p cs =>
    if i == id then some (ComponentNode.mk i t p cs)
    else findInChildren cs id

/-- The for-loop of findComponentById over a child list: first match wins. -/
def findInChildren (cs : List ComponentNode) (id : String) :
    Option ComponentNode :=
  match cs with
  | [] => none
  | c :: rest =>
    match findComponentById c id with
    | some found => some found
    | none => findInChildren rest id

end

mutual

/-- Rebuild of one root applying the updater to the node with the given
identifier (VisualBuilder.tsx, updateComponentRecursive): a matching
node is replaced by updater applied to it and its subtree is not
descended into; otherwise the node is rebuilt with the children mapped
recursively. -/
def updateComponentRecursive (component : ComponentNode) (id : String)
    (updater : ComponentNode → ComponentNode) : ComponentNode :=
  match component with
  | .mk i t p cs =>
    if i == id then updater (ComponentNode.mk i t p cs)
    else ComponentNode.mk i t p (updateChildren cs id updater)

/-- The children.map call of updateComponentRecursive. -/
def updateChildren (cs : List ComponentNode) (id : String)
    (updater : ComponentNode → ComponentNode) : List ComponentNode :=
  match cs with
  | [] => []
  | c :: rest =>
    updateComponentRecursive c id updater :: updateChildren rest id updater

end

/-- Per-root map of the updater over a root list (VisualBuilder.tsx,
updateComponentInTree). -/
def updateComponentInTree (components : List ComponentNode) (id : String)
    (updater : ComponentNode → ComponentNode) : List ComponentNode :=
  updateChildren components id updater

mutual

/-- Deletion of the subtree rooted at the given identifier from one root
(VisualBuilder.tsx, deleteComponentRecursive): returns none when the
root itself matches, otherwise rebuilds the node with matching
descendants filtered out of the children. -/
def deleteComponentRecursive (component : ComponentNode) (id : String) :
    Option ComponentNode :=
  match component with
  | .mk i t p cs =>
    if i == id then none
    else some (ComponentNode.mk i t p (deleteFromChildren cs id))

/-- The children.map followed by filter of non-null results in
deleteComponentRecursive. -/
def deleteFromChildren (cs : List ComponentNode) (id : String) :
    List ComponentNode :=
  match cs with
  | [] => []
  | c :: rest =>
    match deleteComponentRecursive c id with
    | some kept => kept :: deleteFromChildren rest id
    | none => deleteFromChildren rest id

end

/-- Per-root map and filter over a root list (VisualBuilder.tsx,
deleteComponentFromTree). -/
def deleteComponentFromTree (components : List ComponentNode) (id : String) :
    List ComponentNode :=
  deleteFromChildren components id

mutual

/-- Whether a node with the given identifier occurs anywhere in the tree
rooted at the node.  Specification-side predicate used to state the
claims; not itself a source function. -/
def occursNode (id : String) (component : ComponentNode) : Bool :=
  match component with
  | .mk i _ _ cs => i == id || occursForest id cs

/-- Whether a node with the given identifier occurs in a forest. -/
def occursForest (id : String) (cs : List ComponentNode) : Bool :=
  match cs with
  | [] => false
  | c :: rest => occursNode id c || occursForest id rest

end

mutual

/-- All identifiers of a tree in depth-first, parent-before-children
order.  Specification-side helper used to state uniqueness hypotheses. -/
def nodeIds (component : ComponentNode) : List String :=
  match component with
  | .mk i _ _ cs => i :: forestIds cs

/-- All identifiers of a forest in depth-first order. -/
def forestIds (cs : List ComponentNode) : List String :=
  match cs with
  | [] => []
  | c :: rest => nodeIds c ++ forestIds rest

end

/-! Page-level state and the event handlers of the enhanced builder page
(src/unnamed/part_001) and of VisualBuilder.tsx. -/

/-- One screen of the project (part_001, interface PageData). -/
structure PageData where
  id : String
  name : String
  route : String
  is_home : Bool
  components : List ComponentNode

/-- Selected-component lookup of VisualBuilder.tsx (the selectedComponent
binding): when the root list is nonempty, findComponentById is applied
to the FIRST root only, with the empty string standing in for a null
selection; an empty root list yields null.  The enhanced builder page
computes the same expression on currentPage.components[0]. -/
def selectedComponentOf (components : List ComponentNode)
    (selectedId : Option String) : Option ComponentNode :=
  match components with
  | [] => none
  | c :: _ => findComponentById c (selectedId.getD "")

/-- Add-component handler of VisualBuilder.tsx (handleAddComponent),
including its aliasing effect.  The first projection of the result is
the root list passed to setComponents; the second is the value the
callers original root-list binding observes AFTER the call.  When the
list is nonempty the source copies the array with a spread but then
calls updated[0].children.push(newComponent), which mutates the node
object shared with the input list, so the callers input observes the
appended child as well.  When the list is empty a fresh one-element
array is produced and the input is untouched. -/
def handleAddComponentVB (components : List ComponentNode)
    (newComponent : ComponentNode) :
    List ComponentNode × List ComponentNode :=
  match components with
  | [] => ([newComponent], [])
  | .mk i t p cs :: rest =>
    (ComponentNode.mk i t p (cs ++ [newComponent]) :: rest,
     ComponentNode.mk i t p (cs ++ [newComponent]) :: rest)

/-- Add-component handler of the enhanced builder page (part_001,
handleAddComponent), modelled on the pages list.  The result is the
pages value passed to setPages together with the new selection and the
success toast; `none` models the exception thrown by
createDefaultComponent for an unknown widget type.  Note that no
containment check is performed: the new node is appended to the first
roots children (or becomes the sole root of an empty page).  The
in-place push aliasing is modelled for VisualBuilder.tsx above; here we
record the resulting pages value. -/
def handleAddComponent (pages : List PageData) (currentPageId : String)
    (ty : String) (fresh : String) :
    Option (List PageData × Option String × Option String) :=
  match pages.find? (fun p => p.id == currentPageId) with
  | none => some (pages, none, none)
  | some _ =>
    match createDefaultComponent fresh ty with
    | none => none
    | some newComponent =>
      let updatedPages := pages.map (fun p =>
        if p.id == currentPageId then
          match p.components with
          | [] => { p with components := [newComponent] }
          | .mk i t pr cs :: rest =>
            let comps := ComponentNode.mk i t pr (cs ++ [newComponent]) :: rest
            { p with components := comps }
        else p)
      some (updatedPages, some newComponent.id,
            some ("Added " ++ ty ++ " component"))

/-- Result of the add-child handler: the pages value passed to setPages,
the selection passed to setSelectedComponentId (none when the handler
returned before selecting), the error toast and the success toast. -/
structure AddChildResult where
  pages : List PageData
  selectedId : Option String
  toastError : Option String
  toastSuccess : Option String

/-- Add-child handler of the enhanced builder page (part_001,
handleAddChild).  The parent is looked up with findComponentById on the
FIRST root of the current page; when the parent is missing or
canContainWidget rejects the pair, the handler shows the error toast
naming parent kind and child kind and returns without touching the
pages.  The outer `none` models the uncaught TypeError raised when the
current page has no roots (components[0] is undefined) and the
exception thrown by createDefaultComponent for an unknown child type.
When the parent lookup returned undefined the template literal renders
the string undefined for parent?.type. -/
def handleAddChild (pages : List PageData) (currentPageId : String)
    (parentId : String) (childType : String) (fresh : String) :
    Option AddChildResult :=
  match pages.find? (fun p => p.id == currentPageId) with
  | none => some ⟨pages, none, none, none⟩
  | some currentPage =>
    match currentPage.components with
    | [] => none
    | c0 :: _ =>
      match findComponentById c0 parentId with
      | none =>
        some ⟨pages, none, some ("undefined cannot contain " ++ childType),
              none⟩
      | some parent =>
        if !canContainWidget parent.type childType then
          some ⟨pages, none,
                some (parent.type ++ " cannot contain " ++ childType), none⟩
        else
          match createDefaultComponent fresh childType with
          | none => none
          | some newChild =>
            let updatedPages := pages.map (fun p =>
              if p.id == currentPageId then
                let comps := updateComponentInTree p.components parentId
                  (fun comp =>
                    ComponentNode.mk comp.id comp.type comp.props
                      (comp.children ++ [newChild]))
                { p with components := comps }
              else p)
            some ⟨updatedPages, some newChild.id, none,
                  some ("Added " ++ childType ++ " to " ++ parent.type)⟩

/-- Result of the delete-page handler: the pages value passed to
setPages, the current page selection after the handler (none models the
undefined produced by reading updated[0].id on an empty list), and the
error toast. -/
structure DeletePageResult where
  pages : List PageData
  currentPageId : Option String
  toastError : Option String

/-- Delete-page handler of the enhanced builder page (part_001,
handleDeletePage): a single-page collection is rejected with the toast
and left unchanged; otherwise pages with the given identifier are
filtered out and, when the currently viewed page was deleted, the
selection falls back to updated[0].id, the first remaining page. -/
def handleDeletePage (pages : List PageData) (currentPageId : String)
    (id : String) : DeletePageResult :=
  if pages.length == 1 then
    ⟨pages, some currentPageId, some "You must have at least one page"⟩
  else
    let updated := pages.filter (fun p => p.id != id)
    let newCurrent :=
      if currentPageId == id then updated.head?.map (·.id)
      else some currentPageId
    ⟨updated, newCurrent, none⟩

/-! Serialization bridge.  Export (part_001, handleExportJSON, and the
save path) serializes the pages with JSON.stringify; the in-memory
component objects carry exactly the fields id, type, props, children in
the literal order of createDefaultComponent, which the spread-based
update helpers preserve, so the emitted JSON objects have that fixed
field order.  Load (part_001, loadProject) parses the document and
reads the screens array back into PageData records field by field. -/

mutual

/-- JSON value produced for one component by JSON.stringify. -/
def encodeComponent : ComponentNode → Json
  | .mk i t p cs =>
    .obj [("id", .str i), ("type", .str t), ("props", .obj p),
          ("children", .arr (encodeForest cs))]

/-- JSON array elements produced for a child list. -/
def encodeForest : List ComponentNode → List Json
  | [] => []
  | c :: rest => encodeComponent c :: encodeForest rest

end

mutual

/-- Reading one parsed JSON object back as a ComponentNode, the way
loadProject consumes screen.components: the parsed object is used
directly as a component, its fields being id, type, props, children in
the serializers field order.  Any other shape yields none (the in-code
reading would produce undefined fields there). -/
def decodeComponent : Json → Option ComponentNode
  | .obj [("id", .str i), ("type", .str t), ("props", .obj p),
          ("children", .arr cs)] =>
    (decodeForest cs).map (fun ch => ComponentNode.mk i t p ch)
  | _ => none

/-- Reading a parsed JSON array back as a child list. -/
def decodeForest : List Json → Option (List ComponentNode)
  | [] => some []
  | j :: rest =>
    match decodeComponent j, decodeForest rest with
    | some c, some cs => some (c :: cs)
    | _, _ => none

end

/-- JSON value produced for one screen by the export path (part_001,
handleExportJSON, the screens map). -/
def encodeScreen (p : PageData) : Json :=
  .obj [("id", .str p.id), ("name", .str p.name), ("route", .str p.route),
        ("is_home", .bool p.is_home),
        ("components", .arr (encodeForest p.components))]

/-- Reading one parsed screen object back into PageData (part_001,
loadProject): id, name, route, is_home and components are read off the
parsed object.  The components-missing fallback of loadProject (a fresh
default Scaffold) is dead on round trips because the serializer always
emits the components field. -/
def decodeScreen : Json → Option PageData
  | .obj [("id", .str i), ("name", .str n), ("route", .str r),
          ("is_home", .bool h), ("components", .arr cs)] =>
    (decodeForest cs).map (fun comps => PageData.mk i n r h comps)
  | _ => none

/-- Reading the parsed screens array back (the Array.isArray map of
loadProject). -/
def decodeScreens : List Json → Option (List PageData)
  | [] => some []
  | j :: rest =>
    match decodeScreen j, decodeScreens rest with
    | some p, some ps => some (p :: ps)
    | _, _ => none

/-- The full JSON document built by handleExportJSON. -/
def encodeDocument (appName packageName : String)
    (pages : List PageData) : Json :=
  .obj [("app_name", .str appName), ("package_name", .str packageName),
        ("screens", .arr (pages.map encodeScreen))]

/-- Reading the parsed document back into the page list, the way
loadProject consumes proj.json_data.screens. -/
def decodeDocument : Json → Option (List PageData)
  | .obj [("app_name", _), ("package_name", _),
          ("screens", .arr screens)] => decodeScreens screens
  | _ => none

/-! Auxiliary lemmas about the tree operations. -/

mutual

/-- A lookup for an identifier that does not occur in the tree fails. -/
theorem findComponentById_eq_none (c : ComponentNode) (id : String)
    (h : occursNode id c = false) : findComponentById c id = none := by
  match c with
  | .mk i t p cs =>
    rw [occursNode] at h
    rw [findComponentById]
    simp only [Bool.or_eq_false_iff] at h
    rw [h.1]
    exact findInChildren_eq_none cs id h.2

/-- A lookup for an identifier that does not occur in a forest fails. -/
theorem findInChildren_eq_none (cs : List ComponentNode) (id : String)
    (h : occursForest id cs = false) : findInChildren cs id = none := by
  match cs with
  | [] => rw [findInChildren]
  | c :: rest =>
    rw [occursForest] at h
    simp only [Bool.or_eq_false_iff] at h
    rw [findInChildren, findComponentById_eq_none c id h.1]
    exact findInChildren_eq_none rest id h.2

end

mutual

/-- A lookup for an identifier that occurs in the tree succeeds. -/
theorem findComponentById_isSome (c : ComponentNode) (id : String)
    (h : occursNode id c = true) : (findComponentById c id).isSome = true := by
  match c with
  | .mk i t p cs =>
    rw [occursNode] at h
    rw [findComponentById]
    rcases Bool.or_eq_true_iff.mp h with h1 | h2
    · rw [h1]; rfl
    · match hb : (i == id) with
      | true => simp
      | false =>
        simp only [Bool.false_eq_true, if_false]
        exact findInChildren_isSome cs id h2

/-- A lookup for an identifier that occurs in a forest succeeds. -/
theorem findInChildren_isSome (cs : List ComponentNode) (id : String)
    (h : occursForest id cs = true) : (findInChildren cs id).isSome = true := by
  match cs with
  | [] => rw [occursForest] at h; exact absurd h (by simp)
  | c :: rest =>
    rw [occursForest] at h
    rw [findInChildren]
    rcases Bool.or_eq_true_iff.mp h with h1 | h2
    · have := findComponentById_isSome c id h1
      match hf : findComponentById c id with
      | some found => rfl
      | none => rw [hf] at this; exact absurd this (by simp)
    · match hf : findComponentById c id with
      | some found => rfl
      | none => exact findInChildren_isSome rest id h2

end

mutual

/-- Updating at an identifier that does not occur in the tree rebuilds
the tree unchanged, whatever the updater. -/
theorem updateComponentRecursive_eq_self (c : ComponentNode) (id : String)
    (updater : ComponentNode → ComponentNode)
    (h : occursNode id c = false) :
    updateComponentRecursive c id updater = c := by
  match c with
  | .mk i t p cs =>
    rw [occursNode] at h
    simp only [Bool.or_eq_false_iff] at h
    rw [updateComponentRecursive, h.1]
    simp only [Bool.false_eq_true, if_false]
    rw [updateChildren_eq_self cs id updater h.2]

/-- Updating at an identifier that does not occur in a forest rebuilds
the forest unchanged. -/
theorem updateChildren_eq_self (cs : List ComponentNode) (id : String)
    (updater : ComponentNode → ComponentNode)
    (h : occursForest id cs = false) :
    updateChildren cs id updater = cs := by
  match cs with
  | [] => rw [updateChildren]
  | c :: rest =>
    rw [occursForest] at h
    simp only [Bool.or_eq_false_iff] at h
    rw [updateChildren, updateComponentRecursive_eq_self c id updater h.1,
        updateChildren_eq_self rest id updater h.2]

end

mutual

/-- Deleting an identifier that does not occur in the tree keeps the
tree unchanged. -/
theorem deleteComponentRecursive_eq_self (c : ComponentNode) (id : String)
    (h : occursNode id c = false) :
    deleteComponentRecursive c id = some c := by
  match c with
  | .mk i t p cs =>
    rw [occursNode] at h
    simp only [Bool.or_eq_false_iff] at h
    rw [deleteComponentRecursive, h.1]
    simp only [Bool.false_eq_true, if_false]
    rw [deleteFromChildren_eq_self cs id h.2]

/-- Deleting an identifier that does not occur in a forest keeps the
forest unchanged. -/
theorem deleteFromChildren_eq_self (cs : List ComponentNode) (id : String)
    (h : occursForest id cs = false) :
    deleteFromChildren cs id = cs := by
  match cs with
  | [] => rw [deleteFromChildren]
  | c :: rest =>
    rw [occursForest] at h
    simp only [Bool.or_eq_false_iff] at h
    rw [deleteFromChildren, deleteComponentRecursive_eq_self c id h.1,
        deleteFromChildren_eq_self rest id h.2]

end

mutual

/-- A node surviving a deletion no longer contains the identifier. -/
theorem occursNode_delete (c : ComponentNode) (id : String)
    (kept : ComponentNode) (h : deleteComponentRecursive c id = some kept) :
    occursNode id kept = false := by
  match c with
  | .mk i t p cs =>
    rw [deleteComponentRecursive] at h
    match hb : (i == id) with
    | true => rw [hb] at h; simp at h
    | false =>
      rw [hb] at h
      simp only [Bool.false_eq_true, if_false, Option.some.injEq] at h
      subst h
      rw [occursNode, hb]
      simp only [Bool.false_or]
      exact occursForest_delete cs id

/-- After deleting an identifier from a forest it occurs nowhere in the
result. -/
theorem occursForest_delete (cs : List ComponentNode) (id : String) :
    occursForest id (deleteFromChildren cs id) = false := by
  match cs with
  | [] => rw [deleteFromChildren]; rw [occursForest]
  | c :: rest =>
    rw [deleteFromChildren]
    match hd : deleteComponentRecursive c id with
    | some kept =>
      rw [occursForest, occursNode_delete c id kept hd,
          occursForest_delete rest id]
      rfl
    | none => exact occursForest_delete rest id

end

/-- The updater passed by handleUpdateProps in both builder pages: the
spread (comp) => ({...comp, props}) keeps identifier, kind and children
and replaces the whole property map. -/
def setProps (newProps : List (String × Json)) :
    ComponentNode → ComponentNode
  | .mk i t _ cs => .mk i t newProps cs

mutual

/-- Looking up an occurring identifier after a whole-map property update
yields exactly the new property map. -/
theorem find_update_props_node (c : ComponentNode) (id : String)
    (P : List (String × Json)) (h : occursNode id c = true) :
    (findComponentById (updateComponentRecursive c id (setProps P))
        id).map ComponentNode.props = some P := by
  match c with
  | .mk i t p cs =>
    rw [updateComponentRecursive]
    match hb : (i == id) with
    | true =>
      simp only [eq_self_iff_true, if_true]
      rw [setProps, findComponentById, if_pos hb]
      rfl
    | false =>
      simp only [Bool.false_eq_true, if_false]
      rw [findComponentById, if_neg (by simp [hb])]
      rw [occursNode, hb] at h
      simp only [Bool.false_or] at h
      exact find_update_props_forest cs id P h

/-- Forest version of find_update_props_node. -/
theorem find_update_props_forest (cs : List ComponentNode) (id : String)
    (P : List (String × Json)) (h : occursForest id cs = true) :
    (findInChildren (updateChildren cs id (setProps P))
        id).map ComponentNode.props = some P := by
  match cs with
  | [] => rw [occursForest] at h; exact absurd h (by simp)
  | c :: rest =>
    rw [updateChildren, findInChildren]
    match hocc : occursNode id c with
    | true =>
      have hn := find_update_props_node c id P hocc
      match hf : findComponentById (updateComponentRecursive c id
          (setProps P)) id with
      | some r => rw [hf] at hn; exact hn
      | none => rw [hf] at hn; exact absurd hn (by simp)
    | false =>
      rw [updateComponentRecursive_eq_self c id (setProps P) hocc,
          findComponentById_eq_none c id hocc]
      rw [occursForest] at h
      rcases Bool.or_eq_true_iff.mp h with h1 | h2
      · rw [hocc] at h1; exact absurd h1 (by simp)
      · exact find_update_props_forest rest id P h2

end

mutual

/-- Serializing one component and reading it back reconstructs the
component exactly. -/
theorem decode_encodeComponent (c : ComponentNode) :
    decodeComponent (encodeComponent c) = some c := by
  match c with
  | .mk i t p cs =>
    rw [encodeComponent, decodeComponent, decode_encodeForest cs]
    rfl

/-- Serializing a child list and reading it back reconstructs the list
exactly. -/
theorem decode_encodeForest (cs : List ComponentNode) :
    decodeForest (encodeForest cs) = some cs := by
  match cs with
  | [] => rw [encodeForest, decodeForest]
  | c :: rest =>
    rw [encodeForest, decodeForest, decode_encodeComponent c,
        decode_encodeForest rest]

end

/-- Serializing one screen and reading it back reconstructs the page
record exactly. -/
theorem decode_encodeScreen (p : PageData) :
    decodeScreen (encodeScreen p) = some p := by
  rw [encodeScreen, decodeScreen, decode_encodeForest p.components]
  rfl

/-- Serializing the screens array and reading it back reconstructs the
page list exactly. -/
theorem decodeScreens_map_encodeScreen (pages : List PageData) :
    decodeScreens (pages.map encodeScreen) = some pages := by
  induction pages with
  | nil => rfl
  | cons p rest ih =>
    rw [List.map_cons, decodeScreens, decode_encodeScreen p, ih]

/-! Concrete component trees and pages used as witnesses and
counterexamples. -/

/-- A leaf Text node with identifier t1. -/
def demoText : ComponentNode := ComponentNode.mk "t1" "Text" [("text", Json.str "hi")] []

/-- A Scaffold root with identifier s1 holding the demo Text node. -/
def demoScaffold : ComponentNode := ComponentNode.mk "s1" "Scaffold" [] [demoText]

/-- A Button node with identifier b0. -/
def demoButton : ComponentNode := ComponentNode.mk "b0" "Button" [] []

/-- A Text root node with identifier t1 and no props. -/
def demoTextRoot : ComponentNode := ComponentNode.mk "t1" "Text" [] []

/-- A page whose only root is a leaf Text widget. -/
def demoTextPage : PageData := ⟨"p1", "Home", "/", true, [demoTextRoot]⟩

/-- A home page with identifier p1. -/
def demoPageA : PageData := ⟨"p1", "Home", "/", true, []⟩

/-- A second page with identifier p2. -/
def demoPageB : PageData := ⟨"p2", "Profile", "/profile", false, []⟩

/-- Every registered widget definition leaves the optional defaultProps
field unset; this is the reason createDefaultComponent always returns
an empty property map. -/
theorem defaultProps_isNone_of_registered (ty : String) (d : WidgetDefinition)
    (h : getWidgetDefinition ty = some d) : d.defaultProps = none := by
  rw [getWidgetDefinition] at h
  obtain ⟨kv, hkv, hd⟩ := Option.map_eq_some'.mp h
  have hmem : kv ∈ FLUTTER_WIDGETS := List.mem_of_find?_eq_some hkv
  have hall : ∀ kv2 ∈ FLUTTER_WIDGETS, kv2.2.defaultProps.isNone = true := by
    decide
  have := hall kv hmem
  rw [hd] at this
  exact Option.isNone_iff_eq_none.mp this

/-- Claim C1 is false as stated: ListView is declared with
canHaveChildren = false in its WidgetDefinition, yet canContainWidget
special-cases ListView to accept any child, here a Text child. -/
theorem claim1_counterexample :
    (getWidgetDefinition "ListView").map WidgetDefinition.canHaveChildren =
      some false ∧
    canContainWidget "ListView" "Text" = true := by
  constructor
  · rfl
  · rfl

/-- Claim C1 (amended): for every widget kind K other than ListView whose
WidgetDefinition has canHaveChildren = false, and every child kind C,
canContainWidget K C returns false.  ListView is the one special-cased
exception, accepting any child despite its flag. -/
theorem claim1_amended_thm (K C : String)
    (h1 : (getWidgetDefinition K).map WidgetDefinition.canHaveChildren =
      some false)
    (h2 : K ≠ "ListView") :
    canContainWidget K C = false := by
  rw [canContainWidget]
  match hd : getWidgetDefinition K with
  | none => rfl
  | some parent =>
    rw [hd] at h1
    simp only [Option.map_some', Option.some.injEq] at h1
    show (if (K == "ListView") = true then true
      else if (K == "AppBar") = true then false
      else parent.canHaveChildren) = false
    rw [if_neg (by simp [h2])]
    split
    · rfl
    · exact h1

/-- Witness for claim1_amended_thm at the Text parent kind and Button
child kind. -/
theorem claim1_witness :
    ((getWidgetDefinition "Text").map WidgetDefinition.canHaveChildren =
      some false) ∧
    "Text" ≠ "ListView" ∧
    canContainWidget "Text" "Button" = false :=
  ⟨by rfl, by decide, claim1_amended_thm "Text" "Button" (by rfl) (by decide)⟩

/-- Claim C3 is false as stated: the add-component handler of
VisualBuilder.tsx pushes the new node into the children array of the
first root, a node object shared with the input list, so after the call
the tree the caller passed in is not identical to what it was.  The
second projection of handleAddComponentVB is the caller-visible value
of the input root list after the call. -/
theorem claim3_counterexample :
    (handleAddComponentVB [demoScaffold] demoButton).2 ≠ [demoScaffold] := by
  intro h
  have hL : ((handleAddComponentVB [demoScaffold] demoButton).2.map
      (fun c => c.children.length)) = [2] := by rfl
  rw [h] at hL
  exact absurd hL (by decide)

/-- Claim C3 (amended): update-props, add-child and delete-subtree are
implemented with spreads, maps and filters and return new trees without
mutating their inputs, but add-component on a nonempty root list
appends the new node to the first roots existing children array in
place; the callers input list observes the appended child (it equals
the returned list) and therefore differs from the tree passed in. -/
theorem claim3_amended_thm (i t : String) (p : List (String × Json))
    (cs rs : List ComponentNode) (c : ComponentNode) :
    handleAddComponentVB (ComponentNode.mk i t p cs :: rs) c =
      (ComponentNode.mk i t p (cs ++ [c]) :: rs,
       ComponentNode.mk i t p (cs ++ [c]) :: rs) ∧
    ComponentNode.mk i t p (cs ++ [c]) :: rs ≠
      ComponentNode.mk i t p cs :: rs := by
  constructor
  · rfl
  · intro h
    injection h with h1 _
    injection h1 with _ _ _ h4
    have hlen := congrArg List.length h4
    simp only [List.length_append, List.length_singleton] at hlen
    omega

/-- Claim C4 is false as stated: a freshly created Text component has an
empty property map, with no text entry at all, because no registered
WidgetDefinition populates defaultProps. -/
theorem claim4_counterexample :
    (createDefaultComponent "k" "Text").map ComponentNode.props = some [] := by
  rfl

/-- Claim C4 (amended): for every registered widget kind,
createDefaultComponent returns a node of that kind with the generated
identifier, an empty children list and an EMPTY props map (the source
reads definition.defaultProps, which no registry entry sets; the
per-property defaultValue entries, such as Hello World for Text, live
only in the descriptors and are applied at display time). -/
theorem claim4_amended_thm (ty fresh : String)
    (h : (getWidgetDefinition ty).isSome = true) :
    ∃ c, createDefaultComponent fresh ty = some c ∧
      c.type = ty ∧ c.id = ty ++ "-" ++ fresh ∧
      c.children = [] ∧ c.props = [] := by
  obtain ⟨d, hd⟩ := Option.isSome_iff_exists.mp h
  refine ⟨ComponentNode.mk (ty ++ "-" ++ fresh) ty (d.defaultProps.getD []) [],
    ?_, rfl, rfl, rfl, ?_⟩
  · rw [createDefaultComponent, hd]
  · rw [ComponentNode.props, defaultProps_isNone_of_registered ty d hd]
    rfl

/-- Witness for claim4_amended_thm at the Text kind. -/
theorem claim4_witness :
    ((getWidgetDefinition "Text").isSome = true) ∧
    ∃ c, createDefaultComponent "w" "Text" = some c ∧
      c.type = "Text" ∧ c.id = "Text" ++ "-" ++ "w" ∧
      c.children = [] ∧ c.props = [] :=
  ⟨by rfl, claim4_amended_thm "Text" "w" (by rfl)⟩

/-- Claim C5 is false as stated: updating at an identifier that resolves
nowhere in the tree silently returns the tree unchanged; the operation
has no failure channel at all, so no NodeNotFound is ever raised. -/
theorem claim5_counterexample :
    updateComponentInTree [demoScaffold] "missing"
      (setProps [("x", Json.null)]) = [demoScaffold] := by
  rfl

/-- Claim C5 (amended): for every root list and identifier that does not
resolve to any node, updateComponentInTree returns the root list
structurally unchanged for any updater: a silent no-op, not a hard
failure. -/
theorem claim5_amended_thm (components : List ComponentNode) (id : String)
    (updater : ComponentNode → ComponentNode)
    (h : occursForest id components = false) :
    updateComponentInTree components id updater = components := by
  rw [updateComponentInTree]
  exact updateChildren_eq_self components id updater h

/-- Witness for claim5_amended_thm on a concrete tree and absent
identifier. -/
theorem claim5_witness :
    occursForest "zz" [demoScaffold] = false ∧
    updateComponentInTree [demoScaffold] "zz" (setProps []) = [demoScaffold] :=
  ⟨by rfl, claim5_amended_thm [demoScaffold] "zz" (setProps []) (by rfl)⟩

/-- Claim C7: deleting an identifier that appears nowhere in the root
list returns a structurally equal root list: a silent idempotent no-op,
not an error. -/
theorem claim7_thm (T : List ComponentNode) (id : String)
    (h : occursForest id T = false) :
    deleteComponentFromTree T id = T := by
  rw [deleteComponentFromTree]
  exact deleteFromChildren_eq_self T id h

/-- Witness for claim7_thm on a concrete tree and absent identifier. -/
theorem claim7_witness :
    occursForest "zz" [demoScaffold] = false ∧
    deleteComponentFromTree [demoScaffold] "zz" = [demoScaffold] :=
  ⟨by rfl, claim7_thm [demoScaffold] "zz" (by rfl)⟩

/-- Claim C2 is false as stated: the add-component handler of the
enhanced builder page inserts the new node under the first root without
ever consulting the containment validator.  Here a Button is appended
under a Text root, a pair the validator rejects, yet the handler
succeeds, changes the tree and raises no error. -/
theorem claim2_counterexample :
    canContainWidget "Text" "Button" = false ∧
    handleAddComponent [demoTextPage] "p1" "Button" "b1" =
      some ([⟨"p1", "Home", "/", true,
        [ComponentNode.mk "t1" "Text" []
          [ComponentNode.mk "Button-b1" "Button" [] []]]⟩],
        some "Button-b1", some "Added Button component") := by
  constructor
  · rfl
  · rfl

/-- Claim C2 (amended): the add-child operation consults the containment
validator before inserting; when the validator rejects the child kind
under the located parents kind, the handler reports an error naming
both the parent kind and the child kind and the pages, hence the
component tree, are left completely unchanged.  The add-component
operation, by contrast, appends under the first root without consulting
the validator. -/
theorem claim2_amended_thm (pages : List PageData)
    (currentPageId parentId childType fresh : String)
    (cp : PageData) (c0 : ComponentNode) (rest : List ComponentNode)
    (parent : ComponentNode)
    (h1 : pages.find? (fun p => p.id == currentPageId) = some cp)
    (h2 : cp.components = c0 :: rest)
    (h3 : findComponentById c0 parentId = some parent)
    (h4 : canContainWidget parent.type childType = false) :
    handleAddChild pages currentPageId parentId childType fresh =
      some ⟨pages, none,
        some (parent.type ++ " cannot contain " ++ childType), none⟩ := by
  simp only [handleAddChild, h1, h2, h3, h4, Bool.not_false, if_true]

/-- Witness for claim2_amended_thm: adding a Text child under a Text
parent is rejected with the message naming both kinds and the pages are
unchanged. -/
theorem claim2_witness :
    ([demoTextPage].find? (fun p => p.id == "p1") = some demoTextPage) ∧
    (demoTextPage.components = demoTextRoot :: []) ∧
    (findComponentById demoTextRoot "t1" = some demoTextRoot) ∧
    (canContainWidget demoTextRoot.type "Text" = false) ∧
    handleAddChild [demoTextPage] "p1" "t1" "Text" "x" =
      some ⟨[demoTextPage], none, some "Text cannot contain Text", none⟩ :=
  ⟨by rfl, by rfl, by rfl, by rfl,
   claim2_amended_thm [demoTextPage] "p1" "t1" "Text" "x" demoTextPage
     demoTextRoot [] demoTextRoot (by rfl) (by rfl) (by rfl) (by rfl)⟩

/-- Claim C6: with unique identifiers, looking up id in the tree
returned by the whole-map property update at id yields a node whose
property map is exactly the new map P: the map is replaced, not merged,
so old keys absent from P are gone. -/
theorem claim6_thm (T : ComponentNode) (id : String)
    (P : List (String × Json)) (huniq : (nodeIds T).Nodup)
    (hocc : occursNode id T = true) :
    (findComponentById (updateComponentRecursive T id (setProps P)) id).map
      ComponentNode.props = some P :=
  find_update_props_node T id P hocc

/-- Witness for claim6_thm on the demo Scaffold tree: after replacing
the props of the Text child, the lookup returns exactly the new map. -/
theorem claim6_witness :
    (nodeIds demoScaffold).Nodup ∧ occursNode "t1" demoScaffold = true ∧
    (findComponentById (updateComponentRecursive demoScaffold "t1"
        (setProps [("text", Json.str "bye")])) "t1").map
      ComponentNode.props = some [("text", Json.str "bye")] :=
  ⟨by decide, by rfl,
   claim6_thm demoScaffold "t1" [("text", Json.str "bye")] (by decide)
     (by rfl)⟩

/-- Claim C8: serializing a project document and reading it back
reconstructs exactly the same page list: same page count, same route on
every page, and per-page component trees of identical shape, kinds,
child order and property values. -/
theorem claim8_thm (appName packageName : String) (pages : List PageData) :
    decodeDocument (encodeDocument appName packageName pages) = some pages := by
  rw [encodeDocument]
  show decodeScreens (pages.map encodeScreen) = some pages
  exact decodeScreens_map_encodeScreen pages

/-- Helper for claim C9: when page identifiers are unique and there are
at least two pages, filtering one identifier out leaves at least one
page. -/
theorem filter_ne_length_pos (pages : List PageData) (pid : String)
    (hnd : (pages.map PageData.id).Nodup) (hlen : 2 ≤ pages.length) :
    1 ≤ (pages.filter (fun p => p.id != pid)).length := by
  match pages with
  | [] => simp at hlen
  | [p1] => simp at hlen
  | p1 :: p2 :: rest =>
    by_cases h1 : p1.id = pid
    · simp only [List.map_cons] at hnd
      obtain ⟨hni, _⟩ := List.nodup_cons.mp hnd
      have h2 : p2.id ≠ pid := by
        intro he
        apply hni
        have hp : p1.id = p2.id := by rw [h1, he]
        rw [hp]
        exact List.mem_cons_self _ _
      rw [List.filter_cons, if_neg (by simp [h1]), List.filter_cons,
          if_pos (by simp [h2])]
      simp only [List.length_cons]
      omega
    · rw [List.filter_cons, if_pos (by simp [h1])]
      simp only [List.length_cons]
      omega

/-- Claim C9: deleting from a single-page collection fails with the
last-page error and leaves everything unchanged; with unique page
identifiers and at least two pages, the result always keeps at least
one page, and when the currently viewed page is the one deleted the
selection falls back to the first remaining page. -/
theorem claim9_thm (pages : List PageData) (currentPageId id : String) :
    (pages.length = 1 →
      handleDeletePage pages currentPageId id =
        ⟨pages, some currentPageId, some "You must have at least one page"⟩) ∧
    ((pages.map PageData.id).Nodup → 2 ≤ pages.length →
      1 ≤ (handleDeletePage pages currentPageId id).pages.length ∧
      (currentPageId = id →
        ∃ p0, (handleDeletePage pages currentPageId id).pages.head? =
            some p0 ∧
          (handleDeletePage pages currentPageId id).currentPageId =
            some p0.id)) := by
  constructor
  · intro h1
    rw [handleDeletePage, if_pos (by simp [h1])]
  · intro hnd hlen
    have hcond : ¬((pages.length == 1) = true) := by simp; omega
    constructor
    · rw [handleDeletePage, if_neg hcond]
      exact filter_ne_length_pos pages id hnd hlen
    · intro hc
      rw [handleDeletePage, if_neg hcond]
      have hpos := filter_ne_length_pos pages id hnd hlen
      show ∃ p0, (pages.filter (fun p => p.id != id)).head? = some p0 ∧
        (if (currentPageId == id) = true
          then Option.map PageData.id (pages.filter (fun p => p.id != id)).head?
          else some currentPageId) = some p0.id
      rw [if_pos (by simp [hc])]
      obtain ⟨p0, rest2, hu⟩ : ∃ p0 rest2,
          pages.filter (fun p => p.id != id) = p0 :: rest2 := by
        match hv : pages.filter (fun p => p.id != id) with
        | [] => rw [hv] at hpos; simp at hpos
        | q :: qs => exact ⟨q, qs, hv⟩
      rw [hu]
      exact ⟨p0, rfl, rfl⟩

/-- Witness for claim9_thm: deleting the sole page fails and leaves it,
and deleting the current page p1 out of two falls back to p2. -/
theorem claim9_witness :
    (handleDeletePage [demoPageA] "p1" "p1" =
      ⟨[demoPageA], some "p1", some "You must have at least one page"⟩) ∧
    (1 ≤ (handleDeletePage [demoPageA, demoPageB] "p1" "p1").pages.length ∧
      ∃ p0, (handleDeletePage [demoPageA, demoPageB] "p1" "p1").pages.head? =
          some p0 ∧
        (handleDeletePage [demoPageA, demoPageB] "p1" "p1").currentPageId =
          some p0.id) := by
  constructor
  · exact (claim9_thm [demoPageA] "p1" "p1").1 (by rfl)
  · have h := (claim9_thm [demoPageA, demoPageB] "p1" "p1").2
      (by decide) (by decide)
    exact ⟨h.1, h.2 rfl⟩

/-- Claim C10: the selected-component lookup applies findComponentById
only to the first root, so an identifier that lives in a later root is
never found by it, even though it is present in the root list (the
forest search succeeds) and the delete operation, which maps over all
roots, does remove it. -/
theorem claim10_thm (r : ComponentNode) (rs : List ComponentNode)
    (id : String) (h1 : occursNode id r = false)
    (h2 : occursForest id rs = true) :
    selectedComponentOf (r :: rs) (some id) = none ∧
    (findInChildren (r :: rs) id).isSome = true ∧
    occursForest id (deleteComponentFromTree (r :: rs) id) = false := by
  refine ⟨?_, ?_, ?_⟩
  · rw [selectedComponentOf]
    exact findComponentById_eq_none r id h1
  · apply findInChildren_isSome
    rw [occursForest, h2]
    simp
  · rw [deleteComponentFromTree]
    exact occursForest_delete (r :: rs) id

/-- Witness for claim10_thm: the identifier t1 lives in the second root;
the selected-component lookup misses it while the forest search finds
it and deletion removes it. -/
theorem claim10_witness :
    occursNode "t1" demoButton = false ∧
    occursForest "t1" [demoTextRoot] = true ∧
    (selectedComponentOf (demoButton :: [demoTextRoot]) (some "t1") = none ∧
     (findInChildren (demoButton :: [demoTextRoot]) "t1").isSome = true ∧
     occursForest "t1"
       (deleteComponentFromTree (demoButton :: [demoTextRoot]) "t1") = false) :=
  ⟨by rfl, by rfl, claim10_thm demoButton [demoTextRoot] "t1" (by rfl) (by rfl)⟩
